import Mathlib

/-!
Shallow embedding of the ART runtime's OatQuickMethodHeader
(src/runtime/oat_quick_method_header.h) and proofs about its accessors.

Modelling conventions:
* Machine integers are Nat with explicit masking; pointer arithmetic is
  carried out modulo 2^64 (uintptr_t on a 64-bit target).
* A fallible operation (one whose source contains a CHECK or DCHECK that can
  fire, i.e. a fatal contract-violation abort) returns an Option: none means
  the abort path, some v means the operation returns v.  DCHECKs are modelled
  as firing (the debug-build assertion layer of the source).
* The header object is a structure holding the two stored fields
  vmap_table_offset_ and code_size_; the address of the trailing code_ array
  is passed explicitly to the accessors that use it, since in C++ it is the
  address of the flexible array member at byte offset 8 of the header.
-/

namespace Art

/-- The size of a pointer universe: uintptr_t arithmetic is modulo 2^64. -/
def ptrMod : Nat := 2 ^ 64

/-- Wrapping uintptr_t subtraction a - b (modulo 2^64). -/
def usub (a b : Nat) : Nat := (a + (ptrMod - b % ptrMod)) % ptrMod

/-- Instruction sets of arch/instruction_set.h that can appear as the
compile-time constant kRuntimeISA (modelled from the spec: a small closed set
of architecture policies; only the test against kArm matters to this header). -/
inductive InstructionSet where
  | kArm
  | kArm64
  | kThumb2
  | kX86
  | kX86_64
deriving DecidableEq

/-- The OatQuickMethodHeader record: the two stored uint32_t fields.
vmap_table_offset_ is the info (vmap-table) offset; code_size_ holds the code
size in its low 31 bits and the should-deoptimize flag in bit 31. -/
structure OatQuickMethodHeader where
  vmap_table_offset : Nat
  code_size : Nat
deriving DecidableEq

namespace OatQuickMethodHeader

/-- kShouldDeoptimizeMask = 0x80000000: bit 31 of code_size_. -/
def kShouldDeoptimizeMask : Nat := 0x80000000

/-- kCodeSizeMask = ~kShouldDeoptimizeMask over uint32_t: the low 31 bits. -/
def kCodeSizeMask : Nat := 0xFFFFFFFF ^^^ kShouldDeoptimizeMask

/-- OFFSETOF_MEMBER(OatQuickMethodHeader, code_): the two packed uint32_t
fields precede the flexible array member, so the code bytes start 8 bytes
after the header address. -/
def headerSize : Nat := 8

/-- The address of the code_ member of a header located at headerAddr. -/
def codeAddr (headerAddr : Nat) : Nat := (headerAddr + headerSize) % ptrMod

/-- GetCodeSize: CHECK_NE(code_size_, 0xFFFFFFFF) — the raw field equal to the
all-ones stub/trampoline sentinel aborts; otherwise the size is returned with
the deoptimize bit masked off. -/
def GetCodeSize (h : OatQuickMethodHeader) : Option Nat :=
  if h.code_size = 0xFFFFFFFF then none
  else some (h.code_size &&& kCodeSizeMask)

/-- IsOptimized: GetCodeSize() != 0 && vmap_table_offset_ != 0.  Evaluating
GetCodeSize() first means the sentinel abort propagates. -/
def IsOptimized (h : OatQuickMethodHeader) : Option Bool :=
  (GetCodeSize h).map (fun s => decide (s ≠ 0) && decide (h.vmap_table_offset ≠ 0))

/-- GetOptimizedCodeInfoPtr (const overload): DCHECK(IsOptimized()); returns
code_ - vmap_table_offset_.  code is the address of the code_ member. -/
def GetOptimizedCodeInfoPtr (h : OatQuickMethodHeader) (code : Nat) : Option Nat :=
  (IsOptimized h).bind (fun b =>
    if b then some (usub code h.vmap_table_offset) else none)

/-- GetOptimizedCodeInfoPtr (non-const overload): same body as the const one. -/
def GetOptimizedCodeInfoPtrMut (h : OatQuickMethodHeader) (code : Nat) : Option Nat :=
  (IsOptimized h).bind (fun b =>
    if b then some (usub code h.vmap_table_offset) else none)

/-- GetVmapTable: CHECK(!IsOptimized()); returns nullptr (address 0) when the
offset is zero, code_ - vmap_table_offset_ otherwise. -/
def GetVmapTable (h : OatQuickMethodHeader) (code : Nat) : Option Nat :=
  (IsOptimized h).bind (fun b =>
    if b then none
    else some (if h.vmap_table_offset = 0 then 0 else usub code h.vmap_table_offset))

/-- The code_start local of Contains: the code address, incremented by one
when the runtime instruction set is ARM (Thumb-2 pc offset). -/
def codeStart (isa : InstructionSet) (code : Nat) : Nat :=
  if isa = InstructionSet.kArm then (code + 1) % ptrMod else code

/-- Contains: code_start <= pc && pc <= code_start + GetCodeSize(), with the
ARM adjustment of code_start.  The built-in logical and short-circuits: when
pc is below code_start the result is false and GetCodeSize() is never
called, so its sentinel abort cannot fire; only when the left conjunct holds
is GetCodeSize() evaluated (and its abort propagates) before the upper-bound
comparison. -/
def Contains (isa : InstructionSet) (h : OatQuickMethodHeader) (code pc : Nat) :
    Option Bool :=
  if codeStart isa code ≤ pc then
    (GetCodeSize h).map (fun s => decide (pc ≤ (codeStart isa code + s) % ptrMod))
  else some false

/-- GetEntryPoint: code_ with the low bit OR'd in when the runtime
instruction set is ARM (Thumb-2 interworking tag), code_ otherwise. -/
def GetEntryPoint (isa : InstructionSet) (code : Nat) : Nat :=
  if isa = InstructionSet.kArm then code ||| 1 else code

/-- FromCodePointer: the header address is the code pointer minus the header
byte size (the alignment DCHECK is a contract on the caller's pointer,
reflected as an alignment hypothesis in the theorems below). -/
def FromCodePointer (p : Nat) : Nat := usub p headerSize

/-- Modelled from the spec: EntryPointToCodePointer (declared outside this
header, in the runtime utility layer absent from src/) strips the
architecture low tag bit from a published entry point, yielding the true
code pointer. -/
def EntryPointToCodePointer (ep : Nat) : Nat := ep - ep % 2

/-- FromEntryPoint: strip the entry-point tag, then locate from the code
pointer. -/
def FromEntryPoint (ep : Nat) : Nat := FromCodePointer (EntryPointToCodePointer ep)

/-- NativeQuickPcOffset: pc - (uintptr_t)GetEntryPoint(). -/
def NativeQuickPcOffset (isa : InstructionSet) (code pc : Nat) : Nat :=
  usub pc (GetEntryPoint isa code)

/-- SetHasShouldDeoptimizeFlag: DCHECK_EQ(code_size_ & kShouldDeoptimizeMask,
0u) — setting an already-set flag aborts; otherwise bit 31 is OR'd in. -/
def SetHasShouldDeoptimizeFlag (h : OatQuickMethodHeader) :
    Option OatQuickMethodHeader :=
  if h.code_size &&& kShouldDeoptimizeMask = 0 then
    some ⟨h.vmap_table_offset, h.code_size ||| kShouldDeoptimizeMask⟩
  else none

/-- HasShouldDeoptimizeFlag: (code_size_ & kShouldDeoptimizeMask) != 0, a
pure bit test with no checks. -/
def HasShouldDeoptimizeFlag (h : OatQuickMethodHeader) : Bool :=
  decide (h.code_size &&& kShouldDeoptimizeMask ≠ 0)

end OatQuickMethodHeader

/- ### Helper lemmas -/

/-- Wrapping subtraction agrees with plain subtraction when no underflow. -/
theorem usub_eq_sub (a b : Nat) (hb : b ≤ a) (ha : a < ptrMod) :
    usub a b = a - b := by
  unfold usub
  have hbm : b % ptrMod = b := Nat.mod_eq_of_lt (lt_of_le_of_lt hb ha)
  rw [hbm]
  have h1 : a + (ptrMod - b) = (a - b) + ptrMod := by omega
  rw [h1, Nat.add_mod_right]
  exact Nat.mod_eq_of_lt (by omega)

/-- OR-ing the low bit into an even number adds one. -/
theorem lor_one_of_even (p : Nat) (hp : 2 ∣ p) : p ||| 1 = p + 1 := by
  obtain ⟨k, hk⟩ := hp
  subst hk
  have h0 : 2 * k = Nat.bit false k := by simp [Nat.bit_val]
  have h1 : (1 : Nat) = Nat.bit true 0 := by simp [Nat.bit_val]
  rw [h0, h1, Nat.lor_bit]
  simp [Nat.bit_val]

/-- Masking kills the OR-ed part when the OR-ed part is disjoint from the
mask. -/
theorem lor_land_cancel (a m c : Nat) (h : m &&& c = 0) :
    (a ||| m) &&& c = a &&& c := by
  apply Nat.eq_of_testBit_eq
  intro i
  have hm : (m &&& c).testBit i = false := by rw [h]; simp
  rw [Nat.testBit_land] at hm
  simp only [Nat.testBit_land, Nat.testBit_lor]
  cases ha : a.testBit i <;> cases hmc : m.testBit i <;> simp_all

/-- Bitwise and is idempotent. -/
theorem land_self (m : Nat) : m &&& m = m := by
  apply Nat.eq_of_testBit_eq
  intro i
  simp [Nat.testBit_land]

namespace OatQuickMethodHeader

/- ### Claim theorems -/

/-- Claim C1 counterexample: the header whose raw code-size field is
0x7FFFFFFF has its masked code-size field equal to the masked all-ones
sentinel, yet GetCodeSize does not abort: it returns 0x7FFFFFFF.  The source
CHECK compares the raw field, not the masked one, against 0xFFFFFFFF. -/
theorem GetCodeSize_masked_sentinel_no_abort :
    (0x7FFFFFFF : Nat) &&& kCodeSizeMask = 0xFFFFFFFF &&& kCodeSizeMask ∧
    GetCodeSize ⟨0, 0x7FFFFFFF⟩ = some 0x7FFFFFFF := by
  decide

/-- Claim C1 (amended): GetCodeSize aborts exactly when the RAW code-size
field equals the all-ones sentinel 0xFFFFFFFF; otherwise it returns the
stored field with the deoptimize bit masked off. -/
theorem GetCodeSize_aborts_iff_raw_sentinel (h : OatQuickMethodHeader) :
    (GetCodeSize h = none ↔ h.code_size = 0xFFFFFFFF) ∧
    (h.code_size ≠ 0xFFFFFFFF →
      GetCodeSize h = some (h.code_size &&& kCodeSizeMask)) := by
  unfold GetCodeSize
  constructor
  · split <;> simp_all
  · intro hne
    simp [hne]

/-- Claim C1 witness: the amended theorem applied to a concrete header. -/
theorem GetCodeSize_aborts_iff_raw_sentinel_witness :
    GetCodeSize ⟨0, 0x100⟩ = some (0x100 &&& kCodeSizeMask) :=
  (GetCodeSize_aborts_iff_raw_sentinel ⟨0, 0x100⟩).2 (by decide)

/-- Claim C2 counterexample: the header with code-size field 0x7FFFFFFF does
not abort GetCodeSize (it returns 0x7FFFFFFF), its deoptimize flag is clear so
SetHasShouldDeoptimizeFlag succeeds, but the resulting field is the sentinel
0xFFFFFFFF and GetCodeSize aborts afterwards — setting the flag made
GetCodeSize start aborting. -/
theorem SetFlag_makes_GetCodeSize_abort :
    GetCodeSize ⟨0, 0x7FFFFFFF⟩ = some 0x7FFFFFFF ∧
    SetHasShouldDeoptimizeFlag ⟨0, 0x7FFFFFFF⟩ = some ⟨0, 0xFFFFFFFF⟩ ∧
    GetCodeSize ⟨0, 0xFFFFFFFF⟩ = none := by
  decide

/-- Claim C2 (amended): for every header whose masked code size is not the
maximal 31-bit value (equivalently, whose size field cannot become the
sentinel by setting bit 31), a successful SetHasShouldDeoptimizeFlag leaves
GetCodeSize unchanged, and clearing the low 31 size bits leaves
HasShouldDeoptimizeFlag unchanged. -/
theorem SetFlag_GetCodeSize_independent (h h' : OatQuickMethodHeader)
    (hmask : h.code_size &&& kCodeSizeMask ≠ kCodeSizeMask)
    (hset : SetHasShouldDeoptimizeFlag h = some h') :
    GetCodeSize h' = GetCodeSize h ∧
    HasShouldDeoptimizeFlag ⟨h.vmap_table_offset, h.code_size &&& kShouldDeoptimizeMask⟩
      = HasShouldDeoptimizeFlag h := by
  have hdisj : kShouldDeoptimizeMask &&& kCodeSizeMask = 0 := by decide
  unfold SetHasShouldDeoptimizeFlag at hset
  split at hset
  case isTrue hflag =>
    have hh' : h' = ⟨h.vmap_table_offset, h.code_size ||| kShouldDeoptimizeMask⟩ :=
      (Option.some_inj.mp hset).symm
    subst hh'
    constructor
    · -- the OR-ed bit is masked away again by kCodeSizeMask
      have hcancel : (h.code_size ||| kShouldDeoptimizeMask) &&& kCodeSizeMask
          = h.code_size &&& kCodeSizeMask := lor_land_cancel _ _ _ hdisj
      have hne : h.code_size ≠ 0xFFFFFFFF := by
        intro he
        apply hmask
        rw [he]
        decide
      have hne' : h.code_size ||| kShouldDeoptimizeMask ≠ 0xFFFFFFFF := by
        intro he
        apply hmask
        have := congrArg (fun x => x &&& kCodeSizeMask) he
        simp only at this
        rw [hcancel] at this
        rw [this]
        decide
      unfold GetCodeSize
      simp only [hne, hne', if_false, hcancel]
    · unfold HasShouldDeoptimizeFlag
      simp only [Nat.land_assoc, land_self]
  case isFalse hflag =>
    exact absurd hset (by simp)

/-- Claim C2 witness: the amended theorem applied to a concrete header and
its concrete flag-set result. -/
theorem SetFlag_GetCodeSize_independent_witness :
    GetCodeSize ⟨0, 0x80000100⟩ = GetCodeSize ⟨0, 0x100⟩ ∧
    HasShouldDeoptimizeFlag ⟨0, 0x100 &&& kShouldDeoptimizeMask⟩
      = HasShouldDeoptimizeFlag ⟨0, 0x100⟩ :=
  SetFlag_GetCodeSize_independent ⟨0, 0x100⟩ ⟨0, 0x80000100⟩ (by decide) (by decide)

/-- Claim C5: when GetCodeSize does not abort and returns s, IsOptimized
returns true exactly when s is nonzero and the info (vmap-table) offset is
nonzero, and false exactly when one of them is zero. -/
theorem IsOptimized_iff (h : OatQuickMethodHeader) (s : Nat)
    (hs : GetCodeSize h = some s) :
    (IsOptimized h = some true ↔ (s ≠ 0 ∧ h.vmap_table_offset ≠ 0)) ∧
    (IsOptimized h = some false ↔ (s = 0 ∨ h.vmap_table_offset = 0)) := by
  unfold IsOptimized
  rw [hs]
  constructor
  · simp
  · simp [Bool.and_eq_false_iff]
    tauto

/-- Claim C5 witness: a concrete optimized header. -/
theorem IsOptimized_iff_witness :
    IsOptimized ⟨4, 0x100⟩ = some true :=
  ((IsOptimized_iff ⟨4, 0x100⟩ 0x100 (by decide)).1).mpr (by decide)

/-- Claim C8: calling SetHasShouldDeoptimizeFlag when the flag is already set
aborts (DCHECK_EQ fires), never returning an unchanged header; when the flag
is clear it succeeds and sets exactly bit 31.  HasShouldDeoptimizeFlag itself
is a total pure bit test (it returns a Bool for every header — no abort
path exists in its model). -/
theorem SetHasShouldDeoptimizeFlag_double_set_aborts (h : OatQuickMethodHeader) :
    (HasShouldDeoptimizeFlag h = true → SetHasShouldDeoptimizeFlag h = none) ∧
    (HasShouldDeoptimizeFlag h = false →
      SetHasShouldDeoptimizeFlag h
        = some ⟨h.vmap_table_offset, h.code_size ||| kShouldDeoptimizeMask⟩) := by
  unfold HasShouldDeoptimizeFlag SetHasShouldDeoptimizeFlag
  constructor <;> intro hf <;> simp_all

/-- Claim C8 witness: a concrete header with the flag already set aborts. -/
theorem SetHasShouldDeoptimizeFlag_double_set_aborts_witness :
    SetHasShouldDeoptimizeFlag ⟨0, 0x80000000⟩ = none :=
  (SetHasShouldDeoptimizeFlag_double_set_aborts ⟨0, 0x80000000⟩).1 (by decide)

/-- Claim C9 counterexample: on a sentinel header, Contains does NOT abort
for every pc.  With code start 0x1000 on ARM the adjusted start is 0x1001,
so at pc = 0x1000 the left conjunct of the bounds test is false, the logical
and short-circuits, GetCodeSize is never called, and Contains returns false
instead of aborting. -/
theorem Contains_sentinel_short_circuit_no_abort :
    Contains InstructionSet.kArm ⟨0, 0xFFFFFFFF⟩ 0x1000 0x1000 = some false := by
  decide

/-- Claim C9 (amended): on a header whose raw code-size field is the
sentinel 0xFFFFFFFF, GetCodeSize and IsOptimized abort (IsOptimized calls
GetCodeSize first), and Contains aborts exactly when pc is at or above the
architecture-adjusted code start; below it the logical and short-circuits
and Contains returns false without calling GetCodeSize. -/
theorem sentinel_aborts_Contains_IsOptimized (isa : InstructionSet)
    (h : OatQuickMethodHeader) (code pc : Nat)
    (hs : h.code_size = 0xFFFFFFFF) :
    GetCodeSize h = none ∧ IsOptimized h = none ∧
    Contains isa h code pc
      = (if codeStart isa code ≤ pc then none else some false) := by
  refine ⟨by simp [GetCodeSize, hs], by simp [IsOptimized, GetCodeSize, hs], ?_⟩
  unfold Contains GetCodeSize
  split <;> simp [hs]

/-- Claim C9 witness: a concrete sentinel header with a pc above the code
start, where the abort does fire. -/
theorem sentinel_aborts_Contains_IsOptimized_witness :
    GetCodeSize ⟨0, 0xFFFFFFFF⟩ = none ∧
    IsOptimized ⟨0, 0xFFFFFFFF⟩ = none ∧
    Contains InstructionSet.kArm ⟨0, 0xFFFFFFFF⟩ 0x1000 0x2000
      = (if codeStart InstructionSet.kArm 0x1000 ≤ 0x2000 then none else some false) :=
  sentinel_aborts_Contains_IsOptimized InstructionSet.kArm ⟨0, 0xFFFFFFFF⟩
    0x1000 0x2000 (by decide)

/-- Claim C3: with masked code size s and architecture-adjusted code start
C = codeStart isa code (code + 1 on ARM, code otherwise), Contains pc holds
exactly when C ≤ pc ≤ C + s; in particular it holds at C and C + s and fails
at C - 1 and C + s + 1.  The hypotheses keep the code region away from the
ends of the address space so that the uintptr_t arithmetic does not wrap. -/
theorem Contains_bounds (isa : InstructionSet) (h : OatQuickMethodHeader)
    (code pc s : Nat) (hisa : isa ≠ InstructionSet.kThumb2)
    (hs : GetCodeSize h = some s)
    (h1 : 1 ≤ code) (h2 : code + s + 2 < ptrMod) :
    (Contains isa h code pc = some true ↔
      codeStart isa code ≤ pc ∧ pc ≤ codeStart isa code + s) ∧
    Contains isa h code (codeStart isa code) = some true ∧
    Contains isa h code (codeStart isa code + s) = some true ∧
    Contains isa h code (codeStart isa code - 1) = some false ∧
    Contains isa h code (codeStart isa code + s + 1) = some false := by
  have hC : codeStart isa code = code ∨ codeStart isa code = code + 1 := by
    unfold codeStart
    by_cases harm : isa = InstructionSet.kArm
    · right
      rw [if_pos harm]
      exact Nat.mod_eq_of_lt (by omega)
    · left
      rw [if_neg harm]
  have hC1 : 1 ≤ codeStart isa code := by omega
  have hC2 : codeStart isa code + s + 1 < ptrMod := by omega
  have hmod : (codeStart isa code + s) % ptrMod = codeStart isa code + s :=
    Nat.mod_eq_of_lt (by omega)
  have hgen : ∀ x, Contains isa h code x
      = some (decide (codeStart isa code ≤ x ∧ x ≤ codeStart isa code + s)) := by
    intro x
    unfold Contains
    split
    case isTrue hx =>
      rw [hs, Option.map_some', hmod]
      congr 1
      rw [decide_eq_decide]
      omega
    case isFalse hx =>
      congr 1
      rw [eq_comm, decide_eq_false_iff_not]
      omega
  refine ⟨?_, ?_, ?_, ?_, ?_⟩
  · rw [hgen pc]
    simp
  · rw [hgen]
    simp
  · rw [hgen]
    simp
  · rw [hgen]
    simp only [Option.some.injEq, decide_eq_false_iff_not]
    omega
  · rw [hgen]
    simp only [Option.some.injEq, decide_eq_false_iff_not]
    omega

/-- Claim C3 witness: the ARM policy on a concrete header and pc. -/
theorem Contains_bounds_witness :
    (Contains InstructionSet.kArm ⟨0, 0x100⟩ 0x1000 0x1080 = some true ↔
      codeStart InstructionSet.kArm 0x1000 ≤ 0x1080 ∧
      0x1080 ≤ codeStart InstructionSet.kArm 0x1000 + 0x100) ∧
    Contains InstructionSet.kArm ⟨0, 0x100⟩ 0x1000
      (codeStart InstructionSet.kArm 0x1000) = some true ∧
    Contains InstructionSet.kArm ⟨0, 0x100⟩ 0x1000
      (codeStart InstructionSet.kArm 0x1000 + 0x100) = some true ∧
    Contains InstructionSet.kArm ⟨0, 0x100⟩ 0x1000
      (codeStart InstructionSet.kArm 0x1000 - 1) = some false ∧
    Contains InstructionSet.kArm ⟨0, 0x100⟩ 0x1000
      (codeStart InstructionSet.kArm 0x1000 + 0x100 + 1) = some false :=
  Contains_bounds InstructionSet.kArm ⟨0, 0x100⟩ 0x1000 0x1080 0x100
    (by decide) (by decide) (by decide) (by decide)

/-- Claim C4: locating the header from a code pointer, publishing its entry
point (tagged with the low bit exactly on ARM), and locating the header from
that entry point round-trips to the same header address, for every
architecture policy and every aligned (even) code pointer. -/
theorem FromEntryPoint_roundtrip (isa : InstructionSet) (p : Nat)
    (hisa : isa ≠ InstructionSet.kThumb2) (hp : p < ptrMod) (hal : 2 ∣ p) :
    FromEntryPoint (GetEntryPoint isa (codeAddr (FromCodePointer p)))
      = FromCodePointer p := by
  have hP : ptrMod = 18446744073709551616 := by norm_num [ptrMod]
  have hp' : p < 18446744073709551616 := hP ▸ hp
  have hcode : codeAddr (FromCodePointer p) = p := by
    unfold codeAddr FromCodePointer usub headerSize
    rw [hP]
    omega
  rw [hcode]
  by_cases harm : isa = InstructionSet.kArm
  · unfold GetEntryPoint
    rw [if_pos harm, lor_one_of_even p hal]
    unfold FromEntryPoint EntryPointToCodePointer
    have hstrip : p + 1 - (p + 1) % 2 = p := by omega
    rw [hstrip]
  · unfold GetEntryPoint
    rw [if_neg harm]
    unfold FromEntryPoint EntryPointToCodePointer
    have hstrip : p - p % 2 = p := by omega
    rw [hstrip]

/-- Claim C4 witness: the ARM policy at a concrete aligned code pointer. -/
theorem FromEntryPoint_roundtrip_witness :
    FromEntryPoint (GetEntryPoint InstructionSet.kArm
        (codeAddr (FromCodePointer 0x1000)))
      = FromCodePointer 0x1000 :=
  FromEntryPoint_roundtrip InstructionSet.kArm 0x1000 (by decide) (by decide)
    (by decide)

/-- Claim C6: both overloads of GetOptimizedCodeInfoPtr return
code start minus the info offset exactly when IsOptimized returns true, and
abort when IsOptimized returns false. -/
theorem GetOptimizedCodeInfoPtr_spec (h : OatQuickMethodHeader) (code : Nat)
    (hle : h.vmap_table_offset ≤ code) (hc : code < ptrMod) :
    (IsOptimized h = some true →
      GetOptimizedCodeInfoPtr h code = some (code - h.vmap_table_offset) ∧
      GetOptimizedCodeInfoPtrMut h code = some (code - h.vmap_table_offset)) ∧
    (IsOptimized h = some false →
      GetOptimizedCodeInfoPtr h code = none ∧
      GetOptimizedCodeInfoPtrMut h code = none) := by
  have hu := usub_eq_sub code h.vmap_table_offset hle hc
  constructor <;> intro hopt <;>
    unfold GetOptimizedCodeInfoPtr GetOptimizedCodeInfoPtrMut <;>
    rw [hopt] <;> simp [hu]

/-- Claim C6 witness: a concrete optimized header, reproducing the spec
scenario code start 0x1000, info offset 0x10, blob address 0xFF0. -/
theorem GetOptimizedCodeInfoPtr_spec_witness :
    GetOptimizedCodeInfoPtr ⟨0x10, 0x100⟩ 0x1000 = some (0x1000 - 0x10) ∧
    GetOptimizedCodeInfoPtrMut ⟨0x10, 0x100⟩ 0x1000 = some (0x1000 - 0x10) :=
  (GetOptimizedCodeInfoPtr_spec ⟨0x10, 0x100⟩ 0x1000 (by decide) (by decide)).1
    (by decide)

/-- Claim C7: NativeQuickPcOffset is pc minus the (tagged) entry point; on
ARM, where the entry point is code start plus one, it is one less than pc
minus the code start, and on every other architecture it is pc minus the
code start. -/
theorem NativeQuickPcOffset_spec (isa : InstructionSet) (code pc : Nat)
    (heven : 2 ∣ code) (hpc : pc < ptrMod) :
    NativeQuickPcOffset isa code pc = usub pc (GetEntryPoint isa code) ∧
    (isa = InstructionSet.kArm → code + 1 ≤ pc →
      NativeQuickPcOffset isa code pc = pc - code - 1) ∧
    (isa ≠ InstructionSet.kArm → code ≤ pc →
      NativeQuickPcOffset isa code pc = pc - code) := by
  refine ⟨rfl, ?_, ?_⟩
  · intro harm hle
    unfold NativeQuickPcOffset GetEntryPoint
    rw [if_pos harm, lor_one_of_even code heven,
      usub_eq_sub pc (code + 1) hle hpc]
    omega
  · intro harm hle
    unfold NativeQuickPcOffset GetEntryPoint
    rw [if_neg harm, usub_eq_sub pc code hle hpc]

/-- Claim C7 witness: the ARM policy at a concrete code start and pc. -/
theorem NativeQuickPcOffset_spec_witness :
    NativeQuickPcOffset InstructionSet.kArm 0x1000 0x1010
      = usub 0x1010 (GetEntryPoint InstructionSet.kArm 0x1000) ∧
    (InstructionSet.kArm = InstructionSet.kArm → 0x1000 + 1 ≤ 0x1010 →
      NativeQuickPcOffset InstructionSet.kArm 0x1000 0x1010 = 0x1010 - 0x1000 - 1) ∧
    (InstructionSet.kArm ≠ InstructionSet.kArm → 0x1000 ≤ 0x1010 →
      NativeQuickPcOffset InstructionSet.kArm 0x1000 0x1010 = 0x1010 - 0x1000) :=
  NativeQuickPcOffset_spec InstructionSet.kArm 0x1000 0x1010 (by decide) (by decide)

/-- Claim C10: GetVmapTable aborts exactly on optimized headers; on a header
that is not optimized it returns the null pointer when the info offset is
zero and code start minus the info offset otherwise — in particular a blob
address is produced for unoptimized headers with a nonzero offset. -/
theorem GetVmapTable_spec (h : OatQuickMethodHeader) (code : Nat)
    (hle : h.vmap_table_offset ≤ code) (hc : code < ptrMod) :
    (IsOptimized h = some true → GetVmapTable h code = none) ∧
    (IsOptimized h = some false →
      GetVmapTable h code
        = some (if h.vmap_table_offset = 0 then 0
                else code - h.vmap_table_offset)) := by
  have hu := usub_eq_sub code h.vmap_table_offset hle hc
  constructor <;> intro hopt <;> unfold GetVmapTable <;> rw [hopt] <;> simp [hu]

/-- Claim C10 witness: an unoptimized header (code size zero) with a nonzero
info offset yields a blob address. -/
theorem GetVmapTable_spec_witness :
    GetVmapTable ⟨0x10, 0⟩ 0x1000
      = some (if (0x10 : Nat) = 0 then 0 else 0x1000 - 0x10) :=
  (GetVmapTable_spec ⟨0x10, 0⟩ 0x1000 (by decide) (by decide)).2 (by decide)

end OatQuickMethodHeader

end Art
